import Mathlib

/-!
Verification of the inference-request orchestrator of the AI voice
assistant repository (`src/services/geminiService.ts` and the calling
`handleSubmit` in the application root component).

The embedding models one logical classification request.  The remote
provider is abstracted as an environment `env : ℕ → CallOutcome` giving,
for the `i`-th outbound call issued by the orchestrator, what that call
produced: a parsed result, an empty body, a JSON parse failure, or a
rejected promise carrying an error message.  `attemptAnalysis` mirrors the
recursive retry/fallback helper of the source line by line and returns the
full observable trace of the run: the outbound requests issued (in order),
the backoff waits performed (in order, in milliseconds), and the final
outcome (a returned `AnalysisResult` or a thrown error message).
-/

/-- Runtime shape of a parsed response, as used by
`JSON.parse(text) as AnalysisResult` in `geminiService.ts`.  The TypeScript
cast performs no runtime check, so `classification` is an arbitrary string
and `confidence` an arbitrary number (modelled as a rational). -/
structure AnalysisResult where
  classification : String
  confidence : ℚ
  explanation : String
deriving DecidableEq

/-- Helper for `jsIncludes`: does the second list start with the first? -/
def leadsWith : List Char → List Char → Bool
  | [], _ => true
  | _ :: _, [] => false
  | p :: ps, c :: cs => p = c && leadsWith ps cs

/-- Helper for `jsIncludes`: does `pat` occur contiguously in the list? -/
def hasSubList (pat : List Char) : List Char → Bool
  | [] => leadsWith pat []
  | c :: cs => leadsWith pat (c :: cs) || hasSubList pat cs

/-- Model of JavaScript `String.prototype.includes`: substring test. -/
def jsIncludes (s pat : String) : Bool :=
  hasSubList pat.data s.data

/-- Transient-failure classifier of `attemptAnalysis`
(`geminiService.ts`): the message is tested for the substrings `429`,
`quota` and `resource exhausted`. -/
def isQuota (msg : String) : Bool :=
  jsIncludes msg "429" || jsIncludes msg "quota" || jsIncludes msg "resource exhausted"

/-- Prompt text of `geminiService.ts` before the `language`
interpolation point. -/
def promptPart1 : String :=
  "\n      You are a specialized Audio Forensics AI participating in a Deepfake Detection Challenge.\n      \n      TARGET: Classify the input audio as either \x27AI_GENERATED\x27 or \x27HUMAN\x27.\n      LANGUAGE: "

/-- Evaluation criterion 1 of the forensic prompt, verbatim. -/
def critBreath : String :=
  "1. **Breath & Pauses**: Real humans breathe. AI often forgets to breathe or places breaths at unnatural intervals."

/-- Evaluation criterion 2 of the forensic prompt, verbatim. -/
def critProsody : String :=
  "2. **Prosody & Intonation**: Human speech has irregular pitch curves. AI often produces \"flat\" or \"perfectly cyclic\" pitch patterns."

/-- Evaluation criterion 3 of the forensic prompt, verbatim. -/
def critSpectral : String :=
  "3. **Spectral Artifacts**: Listen for metallic ringing, phasing, or high-frequency buzz typical of neural vocoders."

/-- Evaluation criterion 4 of the forensic prompt, verbatim. -/
def critMicro : String :=
  "4. **Micro-details**: Lip smacks, tongue clicks, and throat clearing are strong indicators of HUMAN speech."

/-- Evaluation criterion 5 of the forensic prompt, verbatim. -/
def critBackground : String :=
  "5. **Background**: Absolute digital silence between words is a strong indicator of AI_GENERATED."

/-- Decision heuristic line of the forensic prompt: too perfect leans AI. -/
def heuristicAI : String :=
  "- If it sounds \"too perfect\", it is likely AI."

/-- Decision heuristic line of the forensic prompt: natural imperfections
lean HUMAN. -/
def heuristicHuman : String :=
  "- If it has natural imperfections (breaths, clicks, variable pace), it is likely HUMAN."

/-- Prompt text of `geminiService.ts` after the `language` interpolation
point, assembled from its lines (concatenation equals the source template
literal text). -/
def promptPart2 : String :=
  "\n      \n      EVALUATION CRITERIA:\n      " ++ critBreath ++
  "\n      " ++ critProsody ++
  "\n      " ++ critSpectral ++
  "\n      " ++ critMicro ++
  "\n      " ++ critBackground ++
  "\n      \n      DECISION LOGIC:\n      " ++ heuristicAI ++
  "\n      " ++ heuristicHuman ++
  "\n      \n      OUTPUT: Return a JSON object with the classification, a confidence score (0.0-1.0), and a brief technical explanation.\n    "

/-- The forensic prompt of `analyzeAudio`: the template literal with the
target `language` interpolated. -/
def prompt (language : String) : String :=
  promptPart1 ++ language ++ promptPart2

/-- Schema value kinds used by the structured-output schema
(`Type.OBJECT`, `Type.STRING`, `Type.NUMBER` in the source). -/
inductive SchemaType where
  | OBJECT
  | STRING
  | NUMBER
deriving DecidableEq

/-- One property of the structured-output schema.  `enumVals` models the
optional `enum` field (empty when the source declares none). -/
structure SchemaProperty where
  name : String
  type : SchemaType
  enumVals : List String
  description : String
deriving DecidableEq

/-- The structured-output schema object shape. -/
structure ResponseSchema where
  type : SchemaType
  properties : List SchemaProperty
  required : List String
deriving DecidableEq

/-- `responseSchema` of `requestBody.config` in `geminiService.ts`. -/
def responseSchema : ResponseSchema :=
  { type := .OBJECT
    properties :=
      [ { name := "classification"
          type := .STRING
          enumVals := ["AI_GENERATED", "HUMAN"]
          description := "The definitive classification." },
        { name := "confidence"
          type := .NUMBER
          enumVals := []
          description := "Confidence score (0.0 to 1.0)." },
        { name := "explanation"
          type := .STRING
          enumVals := []
          description := "Technical forensic explanation." } ]
    required := ["classification", "confidence", "explanation"] }

/-- The `inlineData` part of the request contents. -/
structure InlineData where
  mimeType : String
  data : String
deriving DecidableEq

/-- The `contents.parts` of the request: one inline-data part and one
text part. -/
structure RequestContents where
  inlineData : InlineData
  text : String
deriving DecidableEq

/-- The base `requestBody.config` of `geminiService.ts`. -/
structure RequestConfig where
  responseMimeType : String
  responseSchema : ResponseSchema
deriving DecidableEq

/-- The `requestBody` object of `analyzeAudio`. -/
structure RequestBody where
  contents : RequestContents
  config : RequestConfig
deriving DecidableEq

/-- `requestBody` as built in `analyzeAudio` from the audio payload and the
prompt text. -/
def requestBody (base64Data mimeType promptText : String) : RequestBody :=
  { contents :=
      { inlineData := { mimeType := mimeType, data := base64Data }
        text := promptText }
    config :=
      { responseMimeType := "application/json"
        responseSchema := responseSchema } }

/-- The `thinkingConfig` object of `configWithThinking`. -/
structure ThinkingConfig where
  thinkingBudget : Nat
deriving DecidableEq

/-- The per-attempt config: the base config spread together with
`thinkingConfig` and `maxOutputTokens`. -/
structure ConfigWithThinking where
  responseMimeType : String
  responseSchema : ResponseSchema
  thinkingConfig : ThinkingConfig
  maxOutputTokens : Nat
deriving DecidableEq

/-- `configWithThinking` as built inside `attemptAnalysis`:
`{ ...requestBody.config, thinkingConfig: { thinkingBudget: budget },
maxOutputTokens: budget + 4096 }`. -/
def configWithThinking (cfg : RequestConfig) (budget : Nat) : ConfigWithThinking :=
  { responseMimeType := cfg.responseMimeType
    responseSchema := cfg.responseSchema
    thinkingConfig := { thinkingBudget := budget }
    maxOutputTokens := budget + 4096 }

/-- One outbound `ai.models.generateContent` call argument:
`{ model, contents, config }`. -/
structure GenerateContentRequest where
  model : String
  contents : RequestContents
  config : ConfigWithThinking
deriving DecidableEq

/-- The request issued by one attempt of `attemptAnalysis`, for a given
payload, prompt, model and thinking budget. -/
def reqFor (base64Data mimeType promptText model : String) (budget : Nat) :
    GenerateContentRequest :=
  { model := model
    contents := (requestBody base64Data mimeType promptText).contents
    config := configWithThinking (requestBody base64Data mimeType promptText).config budget }

/-- What one remote call produced, abstracting the provider:
a body that parses to `r`, an empty body, a JSON parse failure whose
`SyntaxError` message is `msg`, or a rejected call with error message
`msg`. -/
inductive CallOutcome where
  | success (r : AnalysisResult)
  | emptyResponse
  | parseFailure (msg : String)
  | apiError (msg : String)
deriving DecidableEq

/-- Result of the `try` block of `attemptAnalysis` for one call: either the
parsed result is returned, or an error with message `msg` reaches the
`catch` block.  An empty body raises
`new Error("Empty response from Gemini")` inside the `try`, so it is caught
by the same `catch`; a parse failure is caught there too. -/
inductive TryOutcome where
  | ok (r : AnalysisResult)
  | caught (msg : String)
deriving DecidableEq

/-- Maps a call outcome to what the `try` block of `attemptAnalysis` does
with it. -/
def tryBody : CallOutcome → TryOutcome
  | .success r => .ok r
  | .emptyResponse => .caught "Empty response from Gemini"
  | .parseFailure msg => .caught msg
  | .apiError msg => .caught msg

/-- Final outcome of `analyzeAudio`: the promise resolves with a result or
rejects with an error message. -/
inductive FinalOutcome where
  | returned (r : AnalysisResult)
  | threw (msg : String)
deriving DecidableEq

/-- Observable trace of one `analyzeAudio` run: outbound requests in
order, backoff waits in order (ms), and the final outcome. -/
structure RunTrace where
  attempts : List GenerateContentRequest
  waits : List Nat
  outcome : FinalOutcome
deriving DecidableEq

/-- The recursive retry/fallback helper `attemptAnalysis` of
`geminiService.ts`.  `idx` is the index of the current outbound call in
the environment (the source issues the calls sequentially).  Mirrors the
source control flow: on a caught error, if `isQuota` and `retryCount < 2`
wait `2000 * (retryCount + 1)` ms and retry on the same tier; else if the
model is the primary `gemini-3-pro-preview`, fall back to
`gemini-3-flash-preview` with budget 1024 and `retryCount` restarted at 0;
otherwise rethrow the error. -/
def attemptAnalysis (base64Data mimeType promptText : String)
    (env : Nat → CallOutcome) (idx : Nat)
    (model : String) (budget : Nat) (retryCount : Nat) : RunTrace :=
  let req := reqFor base64Data mimeType promptText model budget
  match tryBody (env idx) with
  | .ok r => { attempts := [req], waits := [], outcome := .returned r }
  | .caught msg =>
    if isQuota msg then
      if retryCount < 2 then
        let rest := attemptAnalysis base64Data mimeType promptText env (idx + 1)
          model budget (retryCount + 1)
        { attempts := req :: rest.attempts
          waits := 2000 * (retryCount + 1) :: rest.waits
          outcome := rest.outcome }
      else if model = "gemini-3-pro-preview" then
        let rest := attemptAnalysis base64Data mimeType promptText env (idx + 1)
          "gemini-3-flash-preview" 1024 0
        { attempts := req :: rest.attempts
          waits := rest.waits
          outcome := rest.outcome }
      else
        { attempts := [req], waits := [], outcome := .threw msg }
    else
      { attempts := [req], waits := [], outcome := .threw msg }
termination_by (if model = "gemini-3-pro-preview" then 3 else 0) + (2 - retryCount)
decreasing_by
  · split <;> omega
  · rename_i _h1 h2
    rw [if_neg (show ("gemini-3-flash-preview" : String) = "gemini-3-pro-preview" → False by decide),
      if_pos h2]
    omega

/-- `analyzeAudio` of `geminiService.ts`: builds the prompt from the target
language and starts `attemptAnalysis` on the primary tier
(`gemini-3-pro-preview`, thinking budget 2048, retryCount defaulted
to 0). -/
def analyzeAudio (base64Data mimeType language : String)
    (env : Nat → CallOutcome) : RunTrace :=
  attemptAnalysis base64Data mimeType (prompt language) env 0
    "gemini-3-pro-preview" 2048 0

/-- Error-to-message mapping of the `catch` block of `handleSubmit` in the
application root component (`src/unnamed/part_000`). -/
def handleSubmitError (msg : String) : String :=
  if jsIncludes msg "429" || jsIncludes msg "quota" then
    "System is experiencing high traffic. Please wait 10 seconds and try again."
  else if jsIncludes msg "safety" || jsIncludes msg "blocked" then
    "The audio content was flagged by safety filters. Please try a different sample."
  else
    "Could not analyze audio. Please ensure the file is a valid audio format."

/-- Sample well-formed result used by witnesses. -/
def sampleResult : AnalysisResult :=
  { classification := "AI_GENERATED", confidence := 92 / 100, explanation := "flat pitch, no breath artifacts" }

/-- A parsed response violating the confidence invariant (1.7 > 1). -/
def badConfidenceResult : AnalysisResult :=
  { classification := "HUMAN", confidence := 17 / 10, explanation := "suspicious" }

/-- Environment in which every remote call fails with a rate-limit
signal. -/
def envQuota : Nat → CallOutcome :=
  fun _ => .apiError "429 quota exceeded"

/-- Environment in which every remote call fails with a message matched
only by the `resource exhausted` transient marker. -/
def envResourceExhausted : Nat → CallOutcome :=
  fun _ => .apiError "resource exhausted"

/-- Environment in which every remote call succeeds with
`sampleResult`. -/
def envSuccess : Nat → CallOutcome :=
  fun _ => .success sampleResult

/-- Environment in which every remote call parses to a response with
out-of-range confidence. -/
def envBadConfidence : Nat → CallOutcome :=
  fun _ => .success badConfidenceResult

/-- Environment in which the first call fails non-transiently (safety
block). -/
def envSafety : Nat → CallOutcome :=
  fun _ => .apiError "blocked by safety filters"

/-- Environment in which the first call is throttled and the second
succeeds. -/
def envThrottleThenOk : Nat → CallOutcome :=
  fun i => if i = 0 then .apiError "429 quota exceeded" else .success sampleResult

/-- Environment in which the first call returns an empty body. -/
def envEmpty : Nat → CallOutcome :=
  fun _ => .emptyResponse

/-- Environment in which the first call returns a body that fails JSON
parsing. -/
def envParseFail : Nat → CallOutcome :=
  fun _ => .parseFailure "Unexpected token < in JSON at position 0"

/-- Step lemma: a call whose body parses returns immediately. -/
theorem attemptAnalysis_ok {env : Nat → CallOutcome} {idx : Nat} {r : AnalysisResult}
    (b mt p model : String) (budget retryCount : Nat)
    (h : tryBody (env idx) = .ok r) :
    attemptAnalysis b mt p env idx model budget retryCount =
      { attempts := [reqFor b mt p model budget], waits := [], outcome := .returned r } := by
  rw [attemptAnalysis.eq_def, h]

/-- Step lemma: a quota-classified failure with `retryCount < 2` waits
`2000 * (retryCount + 1)` ms and retries on the same tier. -/
theorem attemptAnalysis_retry {env : Nat → CallOutcome} {idx : Nat} {msg : String}
    (b mt p model : String) (budget retryCount : Nat)
    (h : tryBody (env idx) = .caught msg) (hq : isQuota msg = true)
    (hr : retryCount < 2) :
    attemptAnalysis b mt p env idx model budget retryCount =
      { attempts := reqFor b mt p model budget ::
          (attemptAnalysis b mt p env (idx + 1) model budget (retryCount + 1)).attempts
        waits := 2000 * (retryCount + 1) ::
          (attemptAnalysis b mt p env (idx + 1) model budget (retryCount + 1)).waits
        outcome := (attemptAnalysis b mt p env (idx + 1) model budget (retryCount + 1)).outcome } := by
  rw [attemptAnalysis.eq_def, h]
  simp [hq, hr]

/-- Step lemma: a quota-classified failure with retries exhausted on the
primary tier falls back to the secondary tier, with no backoff wait at the
switch. -/
theorem attemptAnalysis_fallback {env : Nat → CallOutcome} {idx : Nat} {msg : String}
    (b mt p : String) (budget retryCount : Nat)
    (h : tryBody (env idx) = .caught msg) (hq : isQuota msg = true)
    (hr : ¬ retryCount < 2) :
    attemptAnalysis b mt p env idx "gemini-3-pro-preview" budget retryCount =
      { attempts := reqFor b mt p "gemini-3-pro-preview" budget ::
          (attemptAnalysis b mt p env (idx + 1) "gemini-3-flash-preview" 1024 0).attempts
        waits := (attemptAnalysis b mt p env (idx + 1) "gemini-3-flash-preview" 1024 0).waits
        outcome := (attemptAnalysis b mt p env (idx + 1) "gemini-3-flash-preview" 1024 0).outcome } := by
  rw [attemptAnalysis.eq_def, h]
  simp [hq, hr]

/-- Step lemma: a quota-classified failure with retries exhausted on a
non-primary tier rethrows the error. -/
theorem attemptAnalysis_exhaust {env : Nat → CallOutcome} {idx : Nat} {msg : String}
    (b mt p model : String) (budget retryCount : Nat)
    (h : tryBody (env idx) = .caught msg) (hq : isQuota msg = true)
    (hr : ¬ retryCount < 2) (hm : model ≠ "gemini-3-pro-preview") :
    attemptAnalysis b mt p env idx model budget retryCount =
      { attempts := [reqFor b mt p model budget], waits := [], outcome := .threw msg } := by
  rw [attemptAnalysis.eq_def, h]
  simp [hq, hr, hm]

/-- Step lemma: an error not classified as transient is rethrown at once,
with no retry, no wait and no fallback. -/
theorem attemptAnalysis_nonquota {env : Nat → CallOutcome} {idx : Nat} {msg : String}
    (b mt p model : String) (budget retryCount : Nat)
    (h : tryBody (env idx) = .caught msg) (hq : isQuota msg = false) :
    attemptAnalysis b mt p env idx model budget retryCount =
      { attempts := [reqFor b mt p model budget], waits := [], outcome := .threw msg } := by
  rw [attemptAnalysis.eq_def, h]
  simp [hq]

/-- Concrete run: with every call throttled (`envQuota`), the full ladder
is walked: three primary attempts, three secondary attempts, waits
2000, 4000, 2000, 4000 ms, final rethrow of the quota error. -/
theorem envQuota_run (b mt lang : String) :
    analyzeAudio b mt lang envQuota =
      { attempts :=
          [ reqFor b mt (prompt lang) "gemini-3-pro-preview" 2048,
            reqFor b mt (prompt lang) "gemini-3-pro-preview" 2048,
            reqFor b mt (prompt lang) "gemini-3-pro-preview" 2048,
            reqFor b mt (prompt lang) "gemini-3-flash-preview" 1024,
            reqFor b mt (prompt lang) "gemini-3-flash-preview" 1024,
            reqFor b mt (prompt lang) "gemini-3-flash-preview" 1024 ]
        waits := [2000, 4000, 2000, 4000]
        outcome := .threw "429 quota exceeded" } := by
  have hq : isQuota "429 quota exceeded" = true := by decide
  have ht : ∀ i, tryBody (envQuota i) = .caught "429 quota exceeded" := fun _ => rfl
  unfold analyzeAudio
  rw [attemptAnalysis_retry b mt (prompt lang) _ 2048 0 (ht 0) hq (by omega),
    attemptAnalysis_retry b mt (prompt lang) _ 2048 1 (ht 1) hq (by omega),
    attemptAnalysis_fallback b mt (prompt lang) 2048 2 (ht 2) hq (by omega),
    attemptAnalysis_retry b mt (prompt lang) _ 1024 0 (ht 3) hq (by omega),
    attemptAnalysis_retry b mt (prompt lang) _ 1024 1 (ht 4) hq (by omega),
    attemptAnalysis_exhaust b mt (prompt lang) _ 1024 2 (ht 5) hq (by omega) (by decide)]

/-- Tier-shape lemma for a non-primary tier: starting at retry count `r`,
the tier issues between 1 and `3 - r` attempts, all with the same request,
every wait is 2000 or 4000 ms, and the final outcome comes from the last
call issued. -/
theorem shape_secondary (b mt p : String) (env : Nat → CallOutcome)
    (model : String) (budget : Nat)
    (hm : model ≠ "gemini-3-pro-preview") :
    ∀ (n r idx : Nat), 2 - r = n → r ≤ 2 →
      ∃ k, 1 ≤ k ∧ k + r ≤ 3 ∧
        (attemptAnalysis b mt p env idx model budget r).attempts =
          List.replicate k (reqFor b mt p model budget) ∧
        (∀ w ∈ (attemptAnalysis b mt p env idx model budget r).waits, w = 2000 ∨ w = 4000) ∧
        ((∃ res, (attemptAnalysis b mt p env idx model budget r).outcome = .returned res ∧
            tryBody (env (idx + k - 1)) = .ok res) ∨
         (∃ m, (attemptAnalysis b mt p env idx model budget r).outcome = .threw m ∧
            tryBody (env (idx + k - 1)) = .caught m)) := by
  intro n
  induction n with
  | zero =>
    intro r idx hn hr
    have hr2 : r = 2 := by omega
    subst hr2
    cases htb : tryBody (env idx) with
    | ok res =>
      rw [attemptAnalysis_ok b mt p model budget 2 htb]
      exact ⟨1, by omega, by omega, by simp, by simp, Or.inl ⟨res, rfl, by simpa using htb⟩⟩
    | caught msg =>
      cases hq : isQuota msg with
      | true =>
        rw [attemptAnalysis_exhaust b mt p model budget 2 htb hq (by omega) hm]
        exact ⟨1, by omega, by omega, by simp, by simp, Or.inr ⟨msg, rfl, by simpa using htb⟩⟩
      | false =>
        rw [attemptAnalysis_nonquota b mt p model budget 2 htb hq]
        exact ⟨1, by omega, by omega, by simp, by simp, Or.inr ⟨msg, rfl, by simpa using htb⟩⟩
  | succ n ih =>
    intro r idx hn hr
    have hrlt : r < 2 := by omega
    cases htb : tryBody (env idx) with
    | ok res =>
      rw [attemptAnalysis_ok b mt p model budget r htb]
      exact ⟨1, by omega, by omega, by simp, by simp, Or.inl ⟨res, rfl, by simpa using htb⟩⟩
    | caught msg =>
      cases hq : isQuota msg with
      | true =>
        rw [attemptAnalysis_retry b mt p model budget r htb hq hrlt]
        obtain ⟨k, hk1, hk3, hatt, hwaits, hout⟩ := ih (r + 1) (idx + 1) (by omega) (by omega)
        refine ⟨k + 1, by omega, by omega, ?_, ?_, ?_⟩
        · simp only [hatt, List.replicate_succ]
        · intro w hw
          simp only [List.mem_cons] at hw
          rcases hw with hw | hw
          · have hr01 : r = 0 ∨ r = 1 := by omega
            rcases hr01 with h0 | h0 <;> subst h0 <;> simp [hw]
          · exact hwaits w hw
        · have hidx : idx + 1 + k - 1 = idx + (k + 1) - 1 := by omega
          rw [hidx] at hout
          exact hout
      | false =>
        rw [attemptAnalysis_nonquota b mt p model budget r htb hq]
        exact ⟨1, by omega, by omega, by simp, by simp, Or.inr ⟨msg, rfl, by simpa using htb⟩⟩

/-- Tier-shape lemma for the primary tier: starting at retry count `r`,
the run issues between 1 and `3 - r` primary attempts followed by at most
3 secondary attempts (in that order, with the fixed per-tier requests),
every wait is 2000 or 4000 ms, and the final outcome comes from the last
call issued. -/
theorem shape_primary (b mt p : String) (env : Nat → CallOutcome) (budget : Nat) :
    ∀ (n r idx : Nat), 2 - r = n → r ≤ 2 →
      ∃ j k, 1 ≤ j ∧ j + r ≤ 3 ∧ k ≤ 3 ∧
        (attemptAnalysis b mt p env idx "gemini-3-pro-preview" budget r).attempts =
          List.replicate j (reqFor b mt p "gemini-3-pro-preview" budget) ++
          List.replicate k (reqFor b mt p "gemini-3-flash-preview" 1024) ∧
        (∀ w ∈ (attemptAnalysis b mt p env idx "gemini-3-pro-preview" budget r).waits,
          w = 2000 ∨ w = 4000) ∧
        ((∃ res, (attemptAnalysis b mt p env idx "gemini-3-pro-preview" budget r).outcome =
            .returned res ∧ tryBody (env (idx + (j + k) - 1)) = .ok res) ∨
         (∃ m, (attemptAnalysis b mt p env idx "gemini-3-pro-preview" budget r).outcome =
            .threw m ∧ tryBody (env (idx + (j + k) - 1)) = .caught m)) := by
  intro n
  induction n with
  | zero =>
    intro r idx hn hr
    have hr2 : r = 2 := by omega
    subst hr2
    cases htb : tryBody (env idx) with
    | ok res =>
      rw [attemptAnalysis_ok b mt p "gemini-3-pro-preview" budget 2 htb]
      exact ⟨1, 0, by omega, by omega, by omega, by simp, by simp,
        Or.inl ⟨res, rfl, by simpa using htb⟩⟩
    | caught msg =>
      cases hq : isQuota msg with
      | true =>
        rw [attemptAnalysis_fallback b mt p budget 2 htb hq (by omega)]
        obtain ⟨k, hk1, hk3, hatt, hwaits, hout⟩ :=
          shape_secondary b mt p env "gemini-3-flash-preview" 1024 (by decide) 2 0 (idx + 1)
            (by omega) (by omega)
        refine ⟨1, k, by omega, by omega, by omega, ?_, ?_, ?_⟩
        · simp only [hatt, List.replicate_succ, List.replicate_zero]
          simp
        · intro w hw
          exact hwaits w hw
        · have hidx : idx + 1 + k - 1 = idx + (1 + k) - 1 := by omega
          rw [hidx] at hout
          exact hout
      | false =>
        rw [attemptAnalysis_nonquota b mt p "gemini-3-pro-preview" budget 2 htb hq]
        exact ⟨1, 0, by omega, by omega, by omega, by simp, by simp,
          Or.inr ⟨msg, rfl, by simpa using htb⟩⟩
  | succ n ih =>
    intro r idx hn hr
    have hrlt : r < 2 := by omega
    cases htb : tryBody (env idx) with
    | ok res =>
      rw [attemptAnalysis_ok b mt p "gemini-3-pro-preview" budget r htb]
      exact ⟨1, 0, by omega, by omega, by omega, by simp, by simp,
        Or.inl ⟨res, rfl, by simpa using htb⟩⟩
    | caught msg =>
      cases hq : isQuota msg with
      | true =>
        rw [attemptAnalysis_retry b mt p "gemini-3-pro-preview" budget r htb hq hrlt]
        obtain ⟨j, k, hj1, hj3, hk3, hatt, hwaits, hout⟩ := ih (r + 1) (idx + 1) (by omega) (by omega)
        refine ⟨j + 1, k, by omega, by omega, by omega, ?_, ?_, ?_⟩
        · simp only [hatt, List.replicate_succ, List.cons_append]
        · intro w hw
          simp only [List.mem_cons] at hw
          rcases hw with hw | hw
          · have hr01 : r = 0 ∨ r = 1 := by omega
            rcases hr01 with h0 | h0 <;> subst h0 <;> simp [hw]
          · exact hwaits w hw
        · have hidx : idx + 1 + (j + k) - 1 = idx + (j + 1 + k) - 1 := by omega
          rw [hidx] at hout
          exact hout
      | false =>
        rw [attemptAnalysis_nonquota b mt p "gemini-3-pro-preview" budget r htb hq]
        exact ⟨1, 0, by omega, by omega, by omega, by simp, by simp,
          Or.inr ⟨msg, rfl, by simpa using htb⟩⟩

/-- A list is led by itself followed by anything. -/
theorem leadsWith_append_self (p t : List Char) : leadsWith p (p ++ t) = true := by
  induction p with
  | nil => rfl
  | cons c cs ih => simp [leadsWith, ih]

/-- A pattern occurs in itself followed by anything. -/
theorem hasSubList_append_self (p t : List Char) : hasSubList p (p ++ t) = true := by
  cases p with
  | nil => cases t <;> simp [hasSubList, leadsWith]
  | cons c cs => simp [hasSubList, leadsWith, leadsWith_append_self]

/-- Occurrence in a list is preserved by prepending. -/
theorem hasSubList_append_left (p : List Char) (a : List Char) {t : List Char}
    (h : hasSubList p t = true) : hasSubList p (a ++ t) = true := by
  induction a with
  | nil => simpa using h
  | cons c cs ih => simp [hasSubList, ih]

/-- Data of a string concatenation. -/
theorem data_append (s t : String) : (s ++ t).data = s.data ++ t.data := rfl

/-- `jsIncludes` holds whenever the pattern occurs in the right part of a
concatenation. -/
theorem jsIncludes_append_left (s t pat : String) (h : jsIncludes t pat = true) :
    jsIncludes (s ++ t) pat = true := by
  unfold jsIncludes at h ⊢
  rw [data_append]
  exact hasSubList_append_left _ _ h

/-- `jsIncludes` holds on a string starting with the pattern. -/
theorem jsIncludes_self_append (pat t : String) : jsIncludes (pat ++ t) pat = true := by
  unfold jsIncludes
  rw [data_append]
  exact hasSubList_append_self _ _

set_option maxRecDepth 100000 in
/-- Each forensic criterion and heuristic line occurs in the prompt tail. -/
theorem promptPart2_contains :
    jsIncludes promptPart2 critBreath = true ∧
    jsIncludes promptPart2 critProsody = true ∧
    jsIncludes promptPart2 critSpectral = true ∧
    jsIncludes promptPart2 critMicro = true ∧
    jsIncludes promptPart2 critBackground = true ∧
    jsIncludes promptPart2 heuristicAI = true ∧
    jsIncludes promptPart2 heuristicHuman = true := by
  unfold promptPart2
  refine ⟨?_, ?_, ?_, ?_, ?_, ?_, ?_⟩ <;>
    · unfold jsIncludes
      simp only [data_append, List.append_assoc]
      repeat
        first
        | exact hasSubList_append_self _ _
        | apply hasSubList_append_left

set_option maxRecDepth 100000 in
/-- C7: the Forensic Prompt Builder is a pure deterministic function of the
target language (the prompt is exactly a fixed front part, the language,
and a fixed tail), its instruction text embeds verbatim the five forensic
evaluation criteria and the too-perfect/natural-imperfections decision
heuristic, and the structured-output schema constrains the response to
exactly the three `AnalysisResult` fields with `classification` restricted
to the enumerated values `AI_GENERATED` and `HUMAN`. -/
theorem c7_forensic_prompt_builder (l : String) :
    prompt l = promptPart1 ++ l ++ promptPart2 ∧
    jsIncludes (prompt l) "1. **Breath & Pauses**: Real humans breathe. AI often forgets to breathe or places breaths at unnatural intervals." = true ∧
    jsIncludes (prompt l) "2. **Prosody & Intonation**: Human speech has irregular pitch curves. AI often produces \"flat\" or \"perfectly cyclic\" pitch patterns." = true ∧
    jsIncludes (prompt l) "3. **Spectral Artifacts**: Listen for metallic ringing, phasing, or high-frequency buzz typical of neural vocoders." = true ∧
    jsIncludes (prompt l) "4. **Micro-details**: Lip smacks, tongue clicks, and throat clearing are strong indicators of HUMAN speech." = true ∧
    jsIncludes (prompt l) "5. **Background**: Absolute digital silence between words is a strong indicator of AI_GENERATED." = true ∧
    jsIncludes (prompt l) "- If it sounds \"too perfect\", it is likely AI." = true ∧
    jsIncludes (prompt l) "- If it has natural imperfections (breaths, clicks, variable pace), it is likely HUMAN." = true ∧
    responseSchema.type = SchemaType.OBJECT ∧
    responseSchema.properties.map (fun prop => (prop.name, prop.enumVals)) =
      [("classification", ["AI_GENERATED", "HUMAN"]), ("confidence", []), ("explanation", [])] ∧
    responseSchema.required = ["classification", "confidence", "explanation"] := by
  obtain ⟨h1, h2, h3, h4, h5, h6, h7⟩ := promptPart2_contains
  exact ⟨rfl,
    jsIncludes_append_left _ _ _ h1,
    jsIncludes_append_left _ _ _ h2,
    jsIncludes_append_left _ _ _ h3,
    jsIncludes_append_left _ _ _ h4,
    jsIncludes_append_left _ _ _ h5,
    jsIncludes_append_left _ _ _ h6,
    jsIncludes_append_left _ _ _ h7,
    rfl, rfl, rfl⟩

/-- Shared helper: under transient failure on every call, the full ladder
runs: 3 primary attempts (waits 2000, 4000 ms), fallback, 3 secondary
attempts (waits 2000, 4000 ms), then the error of the 6th call is rethrown. -/
theorem run_all_transient (b mt lang : String) (env : Nat → CallOutcome)
    (h : ∀ i, ∃ m, tryBody (env i) = .caught m ∧ isQuota m = true) :
    ∃ mFinal, tryBody (env 5) = .caught mFinal ∧ isQuota mFinal = true ∧
      analyzeAudio b mt lang env =
        { attempts :=
            [ reqFor b mt (prompt lang) "gemini-3-pro-preview" 2048,
              reqFor b mt (prompt lang) "gemini-3-pro-preview" 2048,
              reqFor b mt (prompt lang) "gemini-3-pro-preview" 2048,
              reqFor b mt (prompt lang) "gemini-3-flash-preview" 1024,
              reqFor b mt (prompt lang) "gemini-3-flash-preview" 1024,
              reqFor b mt (prompt lang) "gemini-3-flash-preview" 1024 ]
          waits := [2000, 4000, 2000, 4000]
          outcome := .threw mFinal } := by
  obtain ⟨m0, h0, q0⟩ := h 0
  obtain ⟨m1, h1, q1⟩ := h 1
  obtain ⟨m2, h2, q2⟩ := h 2
  obtain ⟨m3, h3, q3⟩ := h 3
  obtain ⟨m4, h4, q4⟩ := h 4
  obtain ⟨m5, h5, q5⟩ := h 5
  refine ⟨m5, h5, q5, ?_⟩
  unfold analyzeAudio
  rw [attemptAnalysis_retry b mt (prompt lang) _ 2048 0 h0 q0 (by omega),
    attemptAnalysis_retry b mt (prompt lang) _ 2048 1 h1 q1 (by omega),
    attemptAnalysis_fallback b mt (prompt lang) 2048 2 h2 q2 (by omega),
    attemptAnalysis_retry b mt (prompt lang) _ 1024 0 h3 q3 (by omega),
    attemptAnalysis_retry b mt (prompt lang) _ 1024 1 h4 q4 (by omega),
    attemptAnalysis_exhaust b mt (prompt lang) _ 1024 2 h5 q5 (by omega) (by decide)]

/-- C1: if every remote call fails with a transient (rate-limit/quota)
signal, `analyzeAudio` performs exactly 3 attempts on the primary tier
(initial + 2 retries) with backoff waits of 2000 ms then 4000 ms, then
exactly 3 attempts on the secondary tier with the same wait pattern, and
then terminates by rethrowing the transient (throttling) error — 6
attempts total, never more. -/
theorem c1_transient_exhaustion (b mt lang : String) (env : Nat → CallOutcome)
    (h : ∀ i, ∃ m, tryBody (env i) = .caught m ∧ isQuota m = true) :
    ∃ mFinal, tryBody (env 5) = .caught mFinal ∧ isQuota mFinal = true ∧
      analyzeAudio b mt lang env =
        { attempts :=
            [ reqFor b mt (prompt lang) "gemini-3-pro-preview" 2048,
              reqFor b mt (prompt lang) "gemini-3-pro-preview" 2048,
              reqFor b mt (prompt lang) "gemini-3-pro-preview" 2048,
              reqFor b mt (prompt lang) "gemini-3-flash-preview" 1024,
              reqFor b mt (prompt lang) "gemini-3-flash-preview" 1024,
              reqFor b mt (prompt lang) "gemini-3-flash-preview" 1024 ]
          waits := [2000, 4000, 2000, 4000]
          outcome := .threw mFinal } :=
  run_all_transient b mt lang env h

/-- C1 witness: the concrete all-throttled environment walks exactly the
six-attempt ladder and rethrows the quota error. -/
theorem c1_transient_exhaustion_witness :
    analyzeAudio "b64" "audio/wav" "English" envQuota =
      { attempts :=
          [ reqFor "b64" "audio/wav" (prompt "English") "gemini-3-pro-preview" 2048,
            reqFor "b64" "audio/wav" (prompt "English") "gemini-3-pro-preview" 2048,
            reqFor "b64" "audio/wav" (prompt "English") "gemini-3-pro-preview" 2048,
            reqFor "b64" "audio/wav" (prompt "English") "gemini-3-flash-preview" 1024,
            reqFor "b64" "audio/wav" (prompt "English") "gemini-3-flash-preview" 1024,
            reqFor "b64" "audio/wav" (prompt "English") "gemini-3-flash-preview" 1024 ]
        waits := [2000, 4000, 2000, 4000]
        outcome := .threw "429 quota exceeded" } := by
  obtain ⟨m5, h5, q5, heq⟩ := c1_transient_exhaustion "b64" "audio/wav" "English" envQuota
    (fun _ => ⟨"429 quota exceeded", rfl, by decide⟩)
  injection (show TryOutcome.caught "429 quota exceeded" = TryOutcome.caught m5 from h5) with hm
  rw [← hm] at heq
  exact heq

/-- C2 counterexample: a parsed response with confidence 1.7 is returned
unchanged by `analyzeAudio` — not rejected and not clamped — so the
claimed invariant on successfully returned results fails. -/
theorem c2_counterexample :
    (analyzeAudio "b64" "audio/wav" "English" envBadConfidence).outcome =
      .returned badConfidenceResult ∧
    badConfidenceResult.confidence = 17 / 10 ∧
    ¬ badConfidenceResult.confidence ≤ 1 := by
  refine ⟨?_, rfl, by norm_num [badConfidenceResult]⟩
  unfold analyzeAudio
  rw [attemptAnalysis_ok "b64" "audio/wav" (prompt "English") _ 2048 0
    (show tryBody (envBadConfidence 0) = .ok badConfidenceResult from rfl)]

/-- C2 amended: `analyzeAudio` performs no validation and no clamping —
whatever `AnalysisResult` the body of the first call parses into (any
classification string, any confidence value) is returned exactly as
parsed; only empty or unparseable bodies surface as thrown errors. -/
theorem c2_amended_no_validation (b mt lang : String) (env : Nat → CallOutcome)
    (r : AnalysisResult) (h : env 0 = .success r) :
    analyzeAudio b mt lang env =
      { attempts := [reqFor b mt (prompt lang) "gemini-3-pro-preview" 2048]
        waits := []
        outcome := .returned r } := by
  unfold analyzeAudio
  rw [attemptAnalysis_ok b mt (prompt lang) _ 2048 0 (by rw [h]; rfl)]

/-- C2 amended witness: the out-of-range response is passed through. -/
theorem c2_amended_no_validation_witness :
    analyzeAudio "b64" "audio/wav" "English" envBadConfidence =
      { attempts := [reqFor "b64" "audio/wav" (prompt "English") "gemini-3-pro-preview" 2048]
        waits := []
        outcome := .returned badConfidenceResult } :=
  c2_amended_no_validation "b64" "audio/wav" "English" envBadConfidence badConfidenceResult rfl

/-- C3: for every environment of call outcomes, `analyzeAudio` reaches
exactly one terminal state and never hangs: between 1 and 6 attempts are
issued (at most 3 per tier across 2 tiers), every backoff wait is 2000 or
4000 ms, and the run ends either returning a result or throwing an
error. -/
theorem c3_termination (b mt lang : String) (env : Nat → CallOutcome) :
    1 ≤ (analyzeAudio b mt lang env).attempts.length ∧
    (analyzeAudio b mt lang env).attempts.length ≤ 6 ∧
    (∀ w ∈ (analyzeAudio b mt lang env).waits, w = 2000 ∨ w = 4000) ∧
    ((∃ res, (analyzeAudio b mt lang env).outcome = .returned res) ∨
     (∃ m, (analyzeAudio b mt lang env).outcome = .threw m)) := by
  obtain ⟨j, k, hj1, hj3, hk3, hatt, hwaits, hout⟩ :=
    shape_primary b mt (prompt lang) env 2048 2 0 0 rfl (by omega)
  unfold analyzeAudio
  refine ⟨?_, ?_, hwaits, ?_⟩
  · rw [hatt]
    simp only [List.length_append, List.length_replicate]
    omega
  · rw [hatt]
    simp only [List.length_append, List.length_replicate]
    omega
  · rcases hout with ⟨res, hres, _⟩ | ⟨m, hm, _⟩
    · exact Or.inl ⟨res, hres⟩
    · exact Or.inr ⟨m, hm⟩

/-- C3 witness: at the all-throttled environment the bounds hold and the
first backoff wait is one of the two allowed durations. -/
theorem c3_termination_witness :
    (2000 = 2000 ∨ 2000 = 4000) ∧
    1 ≤ (analyzeAudio "b64" "audio/wav" "English" envQuota).attempts.length := by
  obtain ⟨hlen, _, hw, _⟩ := c3_termination "b64" "audio/wav" "English" envQuota
  refine ⟨hw 2000 ?_, hlen⟩
  rw [envQuota_run]
  simp

/-- C4: a non-transient failure on the first call makes exactly 1 attempt
and terminates immediately — no backoff wait, no retry, no fallback to the
secondary tier — rethrowing the error unmodified. -/
theorem c4_nontransient_immediate (b mt lang : String) (env : Nat → CallOutcome)
    (m : String) (h : tryBody (env 0) = .caught m) (hq : isQuota m = false) :
    analyzeAudio b mt lang env =
      { attempts := [reqFor b mt (prompt lang) "gemini-3-pro-preview" 2048]
        waits := []
        outcome := .threw m } := by
  unfold analyzeAudio
  rw [attemptAnalysis_nonquota b mt (prompt lang) _ 2048 0 h hq]

/-- C4 witness: a safety-blocked first call terminates after one attempt
with the error surfaced unmodified. -/
theorem c4_nontransient_immediate_witness :
    analyzeAudio "b64" "audio/wav" "English" envSafety =
      { attempts := [reqFor "b64" "audio/wav" (prompt "English") "gemini-3-pro-preview" 2048]
        waits := []
        outcome := .threw "blocked by safety filters" } :=
  c4_nontransient_immediate "b64" "audio/wav" "English" envSafety
    "blocked by safety filters" rfl (by decide)

/-- C5: a transient failure on the first call followed by a valid response
on the second returns that result after exactly 2 attempts — both on the
primary tier — and one 2000 ms backoff wait, with no secondary-tier
attempt. -/
theorem c5_second_attempt_success (b mt lang : String) (env : Nat → CallOutcome)
    (m : String) (r : AnalysisResult)
    (h0 : tryBody (env 0) = .caught m) (hq : isQuota m = true)
    (h1 : tryBody (env 1) = .ok r) :
    analyzeAudio b mt lang env =
      { attempts :=
          [ reqFor b mt (prompt lang) "gemini-3-pro-preview" 2048,
            reqFor b mt (prompt lang) "gemini-3-pro-preview" 2048 ]
        waits := [2000]
        outcome := .returned r } := by
  unfold analyzeAudio
  rw [attemptAnalysis_retry b mt (prompt lang) _ 2048 0 h0 hq (by omega),
    attemptAnalysis_ok b mt (prompt lang) _ 2048 1 h1]

/-- C5 witness: one throttled call then a success returns the sample
result after two primary attempts and a single 2000 ms wait. -/
theorem c5_second_attempt_success_witness :
    analyzeAudio "b64" "audio/wav" "English" envThrottleThenOk =
      { attempts :=
          [ reqFor "b64" "audio/wav" (prompt "English") "gemini-3-pro-preview" 2048,
            reqFor "b64" "audio/wav" (prompt "English") "gemini-3-pro-preview" 2048 ]
        waits := [2000]
        outcome := .returned sampleResult } :=
  c5_second_attempt_success "b64" "audio/wav" "English" envThrottleThenOk
    "429 quota exceeded" sampleResult rfl (by decide) rfl

/-- C6: an empty response body, or a body that fails to parse (whose parse
error carries no rate-limit marker), terminates the run after the single
attempt with the error thrown — no retry and no fallback — and the empty
case maps to the generic invalid-response user message; retryability is
decided only by the `isQuota` classifier. -/
theorem c6_invalid_response (b mt lang : String) (env : Nat → CallOutcome) :
    (env 0 = .emptyResponse →
      analyzeAudio b mt lang env =
        { attempts := [reqFor b mt (prompt lang) "gemini-3-pro-preview" 2048]
          waits := []
          outcome := .threw "Empty response from Gemini" } ∧
      isQuota "Empty response from Gemini" = false ∧
      handleSubmitError "Empty response from Gemini" =
        "Could not analyze audio. Please ensure the file is a valid audio format.") ∧
    (∀ m, env 0 = .parseFailure m → isQuota m = false →
      analyzeAudio b mt lang env =
        { attempts := [reqFor b mt (prompt lang) "gemini-3-pro-preview" 2048]
          waits := []
          outcome := .threw m }) := by
  constructor
  · intro h
    refine ⟨?_, by decide, by decide⟩
    unfold analyzeAudio
    rw [attemptAnalysis_nonquota b mt (prompt lang) _ 2048 0 (by rw [h]; rfl) (by decide)]
  · intro m h hq
    unfold analyzeAudio
    rw [attemptAnalysis_nonquota b mt (prompt lang) _ 2048 0 (by rw [h]; rfl) hq]

/-- C6 witness: the empty-body and parse-failure environments each stop
after one attempt with the error thrown. -/
theorem c6_invalid_response_witness :
    (analyzeAudio "b64" "audio/wav" "English" envEmpty).outcome =
      .threw "Empty response from Gemini" ∧
    (analyzeAudio "b64" "audio/wav" "English" envParseFail).outcome =
      .threw "Unexpected token < in JSON at position 0" := by
  constructor
  · rw [((c6_invalid_response "b64" "audio/wav" "English" envEmpty).1 rfl).1]
  · rw [(c6_invalid_response "b64" "audio/wav" "English" envParseFail).2
      "Unexpected token < in JSON at position 0" rfl (by decide)]

/-- C8 counterexample: `"resource exhausted"` is classified transient by
the orchestrator (so the full six-attempt ladder runs and the error only
surfaces after exhaustion), yet the catch block of the caller does not
match it with `429`/`quota` and therefore displays the generic message, not the
high-traffic one. -/
theorem c8_counterexample :
    isQuota "resource exhausted" = true ∧
    analyzeAudio "b64" "audio/wav" "English" envResourceExhausted =
      { attempts :=
          [ reqFor "b64" "audio/wav" (prompt "English") "gemini-3-pro-preview" 2048,
            reqFor "b64" "audio/wav" (prompt "English") "gemini-3-pro-preview" 2048,
            reqFor "b64" "audio/wav" (prompt "English") "gemini-3-pro-preview" 2048,
            reqFor "b64" "audio/wav" (prompt "English") "gemini-3-flash-preview" 1024,
            reqFor "b64" "audio/wav" (prompt "English") "gemini-3-flash-preview" 1024,
            reqFor "b64" "audio/wav" (prompt "English") "gemini-3-flash-preview" 1024 ]
        waits := [2000, 4000, 2000, 4000]
        outcome := .threw "resource exhausted" } ∧
    handleSubmitError "resource exhausted" ≠
      "System is experiencing high traffic. Please wait 10 seconds and try again." := by
  have hq : isQuota "resource exhausted" = true := by decide
  have ht : ∀ i, tryBody (envResourceExhausted i) = .caught "resource exhausted" := fun _ => rfl
  refine ⟨hq, ?_, by decide⟩
  unfold analyzeAudio
  rw [attemptAnalysis_retry "b64" "audio/wav" (prompt "English") _ 2048 0 (ht 0) hq (by omega),
    attemptAnalysis_retry "b64" "audio/wav" (prompt "English") _ 2048 1 (ht 1) hq (by omega),
    attemptAnalysis_fallback "b64" "audio/wav" (prompt "English") 2048 2 (ht 2) hq (by omega),
    attemptAnalysis_retry "b64" "audio/wav" (prompt "English") _ 1024 0 (ht 3) hq (by omega),
    attemptAnalysis_retry "b64" "audio/wav" (prompt "English") _ 1024 1 (ht 4) hq (by omega),
    attemptAnalysis_exhaust "b64" "audio/wav" (prompt "English") _ 1024 2 (ht 5) hq (by omega)
      (by decide)]

/-- C8 amended: whenever every call fails with a transient signal whose
message is matched by the `429`/`quota` test of the caller (which excludes
signals matched only by `resource exhausted`), the error surfaces only
after all 6 attempts and the caller then displays exactly the
high-traffic message. -/
theorem c8_amended_throttled_message (b mt lang : String) (env : Nat → CallOutcome)
    (h : ∀ i, ∃ m, tryBody (env i) = .caught m ∧
      (jsIncludes m "429" || jsIncludes m "quota") = true) :
    ∃ mFinal, (analyzeAudio b mt lang env).attempts.length = 6 ∧
      (analyzeAudio b mt lang env).outcome = .threw mFinal ∧
      handleSubmitError mFinal =
        "System is experiencing high traffic. Please wait 10 seconds and try again." := by
  have h2 : ∀ i, ∃ m, tryBody (env i) = .caught m ∧ isQuota m = true := by
    intro i
    obtain ⟨m, hc, hj⟩ := h i
    refine ⟨m, hc, ?_⟩
    unfold isQuota
    cases h429 : jsIncludes m "429" with
    | false =>
      rw [h429] at hj
      simp only [Bool.false_or] at hj
      rw [hj]
      rfl
    | true => rfl
  obtain ⟨mFinal, h5, q5, heq⟩ := run_all_transient b mt lang env h2
  obtain ⟨m, hc, hj⟩ := h 5
  rw [hc] at h5
  injection h5 with he
  refine ⟨mFinal, by rw [heq]; rfl, by rw [heq], ?_⟩
  unfold handleSubmitError
  rw [he] at hj
  rw [hj]
  simp

/-- C8 amended witness: at the all-throttled environment with a
`429 quota exceeded` signal, the high-traffic message is displayed after
six attempts. -/
theorem c8_amended_throttled_message_witness :
    ∃ mFinal, (analyzeAudio "b64" "audio/wav" "English" envQuota).attempts.length = 6 ∧
      (analyzeAudio "b64" "audio/wav" "English" envQuota).outcome = .threw mFinal ∧
      handleSubmitError mFinal =
        "System is experiencing high traffic. Please wait 10 seconds and try again." :=
  c8_amended_throttled_message "b64" "audio/wav" "English" envQuota
    (fun _ => ⟨"429 quota exceeded", rfl, by decide⟩)

/-- C9: every attempt issued by `analyzeAudio`, on either tier, carries an
output-length cap equal to the reasoning budget of that tier plus exactly
4096 (`maxOutputTokens = thinkingBudget + 4096`), with primary-tier budget
2048 and secondary-tier budget 1024. -/
theorem c9_output_cap (b mt lang : String) (env : Nat → CallOutcome) :
    ∀ a ∈ (analyzeAudio b mt lang env).attempts,
      a.config.maxOutputTokens = a.config.thinkingConfig.thinkingBudget + 4096 ∧
      ((a.model = "gemini-3-pro-preview" ∧ a.config.thinkingConfig.thinkingBudget = 2048) ∨
       (a.model = "gemini-3-flash-preview" ∧ a.config.thinkingConfig.thinkingBudget = 1024)) := by
  obtain ⟨j, k, hj1, hj3, hk3, hatt, hwaits, hout⟩ :=
    shape_primary b mt (prompt lang) env 2048 2 0 0 rfl (by omega)
  intro a ha
  unfold analyzeAudio at ha
  rw [hatt] at ha
  rcases List.mem_append.mp ha with hmem | hmem
  · have hae := List.eq_of_mem_replicate hmem
    subst hae
    exact ⟨rfl, Or.inl ⟨rfl, rfl⟩⟩
  · have hae := List.eq_of_mem_replicate hmem
    subst hae
    exact ⟨rfl, Or.inr ⟨rfl, rfl⟩⟩

/-- C9 witness: the request of the single successful attempt satisfies
the cap equation at the primary budget. -/
theorem c9_output_cap_witness :
    (reqFor "b64" "audio/wav" (prompt "English") "gemini-3-pro-preview" 2048).config.maxOutputTokens =
      (reqFor "b64" "audio/wav" (prompt "English") "gemini-3-pro-preview" 2048).config.thinkingConfig.thinkingBudget
        + 4096 := by
  have hrun : analyzeAudio "b64" "audio/wav" "English" envSuccess =
      { attempts := [reqFor "b64" "audio/wav" (prompt "English") "gemini-3-pro-preview" 2048]
        waits := []
        outcome := .returned sampleResult } := by
    unfold analyzeAudio
    rw [attemptAnalysis_ok "b64" "audio/wav" (prompt "English") _ 2048 0
      (show tryBody (envSuccess 0) = .ok sampleResult from rfl)]
  have hmem : reqFor "b64" "audio/wav" (prompt "English") "gemini-3-pro-preview" 2048 ∈
      (analyzeAudio "b64" "audio/wav" "English" envSuccess).attempts := by
    rw [hrun]
    simp
  exact (c9_output_cap "b64" "audio/wav" "English" envSuccess _ hmem).1

/-- C10: in every execution the tier fallback happens at most once and
only from the primary tier (`gemini-3-pro-preview`, budget 2048) to the
secondary tier (`gemini-3-flash-preview`, budget 1024): the attempt list
is some 1–3 primary requests followed by at most 3 secondary requests —
never a primary or third-tier request after a secondary one — and when the
run throws, the thrown error is exactly the one produced by the final
call. -/
theorem c10_fallback_monotone (b mt lang : String) (env : Nat → CallOutcome) :
    ∃ j k, 1 ≤ j ∧ j ≤ 3 ∧ k ≤ 3 ∧
      (analyzeAudio b mt lang env).attempts =
        List.replicate j (reqFor b mt (prompt lang) "gemini-3-pro-preview" 2048) ++
        List.replicate k (reqFor b mt (prompt lang) "gemini-3-flash-preview" 1024) ∧
      (∀ m, (analyzeAudio b mt lang env).outcome = .threw m →
        tryBody (env (j + k - 1)) = .caught m) := by
  obtain ⟨j, k, hj1, hj3, hk3, hatt, hwaits, hout⟩ :=
    shape_primary b mt (prompt lang) env 2048 2 0 0 rfl (by omega)
  refine ⟨j, k, hj1, by omega, hk3, ?_, ?_⟩
  · unfold analyzeAudio
    exact hatt
  · intro m hm
    unfold analyzeAudio at hm
    rcases hout with ⟨res, hres, _⟩ | ⟨m2, hm2, htb⟩
    · rw [hm] at hres
      simp at hres
    · rw [hm] at hm2
      injection hm2 with he
      subst he
      simpa using htb

/-- C10 witness: at the all-throttled environment the rethrown final error
is the error of the sixth call. -/
theorem c10_fallback_monotone_witness :
    tryBody (envQuota 5) = .caught "429 quota exceeded" := by
  obtain ⟨j, k, hj1, hj3, hk3, hatt, himp⟩ :=
    c10_fallback_monotone "b64" "audio/wav" "English" envQuota
  have hlen : (analyzeAudio "b64" "audio/wav" "English" envQuota).attempts.length = 6 := by
    rw [envQuota_run]
    rfl
  rw [hatt] at hlen
  simp only [List.length_append, List.length_replicate] at hlen
  have hjk : j + k - 1 = 5 := by omega
  have hthrew : (analyzeAudio "b64" "audio/wav" "English" envQuota).outcome =
      .threw "429 quota exceeded" := by
    rw [envQuota_run]
  rw [← hjk]
  exact himp "429 quota exceeded" hthrew
